import Mathlib

/-!
Verification development for the campus-hub academic records backend
(Django models under `Backend/backend/`).  The Python model layer is
shallowly embedded: pure computations (grade scale, GPA, standing
classification) become Lean functions over `Rat`, and stateful model
`save`/`approve` operations become explicit state-passing functions that
return the mutated state together with an optional validation error.
Django `Decimal` values are embedded as `Rat` (exact decimal arithmetic),
and `ROUND_HALF_UP` quantization to two places is embedded as
`roundHalfUp2` (all quantized values here are nonnegative, so half-up
coincides with half-away-from-zero).
-/

namespace CampusHub

/-- The `GRADE_POINTS` dictionary, `academic/models.py` lines 12–24.
`none` models a key absent from the dict (`dict.get` returning `None`). -/
def GRADE_POINTS : String → Option Rat
  | "A+" => some 4
  | "A" => some 4
  | "A-" => some (375/100)
  | "B+" => some (35/10)
  | "B" => some 3
  | "B-" => some (275/100)
  | "C+" => some (25/10)
  | "C" => some 2
  | "C-" => some (175/100)
  | "D" => some 1
  | "F" => some 0
  | _ => none

/-- Embedding of `Decimal.quantize(Decimal("0.01"), rounding=ROUND_HALF_UP)` on a
nonnegative value: round to 2 decimal places, ties upward. -/
def roundHalfUp2 (x : Rat) : Rat := (Int.floor (x * 100 + 1/2) : Rat) / 100

/-- One `Course` row (`academic/models.py` lines 44–52): its department
foreign key (required), `credit_hours` and active flag.  The `id` stands
for the database primary key. -/
structure CourseRec where
  id : Nat
  departmentId : Nat
  credit_hours : Nat
  is_active : Bool
  deriving Repr, DecidableEq

/-- One `Enrollment` row for a fixed (student, semester), as seen by the
model code: the resolved `course` foreign key and the letter grade
(`none` = NULL, i.e. ungraded; `some ""` = stored empty string, which the
`grade__isnull=False` queryset filter also keeps). -/
structure EnrollmentRec where
  course : CourseRec
  grade : Option String
  deriving Repr, DecidableEq

/-- The accumulation loop shared by `Semester.get_student_gpa`
(lines 88–95) and `Enrollment.calculate_cumulative_gpa` (lines 206–213):
look up the grade point, `continue` on an unmapped grade, otherwise add
`gp * credits` to the quality points and `credits` to the total. -/
def gpaStep (acc : Rat × Nat) (e : EnrollmentRec) : Rat × Nat :=
  match e.grade.bind GRADE_POINTS with
  | none => acc
  | some gp =>
    (acc.1 + gp * (e.course.credit_hours : Rat), acc.2 + e.course.credit_hours)

/-- Embedding of `Semester.get_student_gpa`, `academic/models.py` lines 75–101.
The queryset filter `grade__isnull=False` keeps rows whose grade is
non-NULL; `if not enrollments.exists(): return None`; then the loop,
the `total_credits == 0` guard, and half-up quantization. -/
def get_student_gpa (es : List EnrollmentRec) : Option Rat :=
  let enrollments := es.filter (fun e => e.grade.isSome)
  if enrollments.isEmpty then none
  else
    let acc := enrollments.foldl gpaStep (0, 0)
    if acc.2 = 0 then none
    else some (roundHalfUp2 (acc.1 / (acc.2 : Rat)))

/-- Embedding of `Enrollment.calculate_cumulative_gpa`, `academic/models.py`
lines 193–219: the same filter/loop/guard/quantize sequence, applied to
the enrollments of the student across all semesters. -/
def calculate_cumulative_gpa (es : List EnrollmentRec) : Option Rat :=
  let enrollments := es.filter (fun e => e.grade.isSome)
  if enrollments.isEmpty then none
  else
    let acc := enrollments.foldl gpaStep (0, 0)
    if acc.2 = 0 then none
    else some (roundHalfUp2 (acc.1 / (acc.2 : Rat)))

/-- The `AcademicStatusChoices` enum, `academic/models.py` lines 405–409. -/
inductive AcademicStanding where
  | ACTIVE
  | PROBATION
  | DISMISSED
  | GRADUATED
  deriving Repr, DecidableEq

/-- The `reference` local of `AcademicStatus.determine_status_from_gpa`
(line 473): `semester_gpa if semester_gpa is not None else cumulative_gpa`. -/
def gpaReference (semester_gpa cumulative_gpa : Option Rat) : Option Rat :=
  match semester_gpa with
  | some r => some r
  | none => cumulative_gpa

/-- Embedding of `AcademicStatus.determine_status_from_gpa`, `academic/models.py`
lines 471–481. -/
def determine_status_from_gpa (semester_gpa cumulative_gpa : Option Rat) :
    AcademicStanding :=
  match gpaReference semester_gpa cumulative_gpa with
  | none => .ACTIVE
  | some reference =>
    if 2 ≤ reference then .ACTIVE
    else if 175/100 ≤ reference then .PROBATION
    else .DISMISSED

/-- Embedding of `GradeSubmission.calculate_grade`, `academic/models.py` lines 278–301.
The source converts the stored 3-decimal-place `Decimal` mark to a float
before comparing; every 3-decimal-place value in [0, 100] either equals an
integer band bound exactly (integers are exact doubles) or lies at least
0.001 from it, far outside double rounding error, so the float comparisons
agree with exact rational comparison and the mark is embedded as `Rat`. -/
def calculate_grade (m : Rat) : String :=
  if 90 ≤ m then "A+"
  else if 85 ≤ m ∧ m < 90 then "A"
  else if 80 ≤ m ∧ m < 85 then "A-"
  else if 75 ≤ m ∧ m < 80 then "B+"
  else if 70 ≤ m ∧ m < 75 then "B"
  else if 65 ≤ m ∧ m < 70 then "B-"
  else if 60 ≤ m ∧ m < 65 then "C+"
  else if 50 ≤ m ∧ m < 60 then "C"
  else if 45 ≤ m ∧ m < 50 then "C-"
  else if 40 ≤ m ∧ m < 45 then "D"
  else "F"

example : calculate_grade (925/10) = "A+" := by norm_num [calculate_grade]
example : get_student_gpa [⟨⟨1, 1, 4, true⟩, some "A"⟩, ⟨⟨2, 1, 3, true⟩, some "B+"⟩] =
    some (379/100) := by
  norm_num [get_student_gpa, gpaStep, GRADE_POINTS, roundHalfUp2]
example : roundHalfUp2 (29/8) = 363/100 := by norm_num [roundHalfUp2]
example : determine_status_from_gpa (some (18/10)) none = .PROBATION := by
  norm_num [determine_status_from_gpa, gpaReference]

/-- Tags for every distinct `ValidationError` raise site modelled here,
one constructor per `raise ValidationError(...)` statement. -/
inductive VErr where
  | onlyStudentsEnroll
  | dismissedStudentEnroll
  | enrollSemesterNotActive
  | courseNotActive
  | courseOutsideStudentDepartment
  | noApprovedRegistration
  | noSectionAssignment
  | onlyStudentsRegister
  | registrationSemesterNotActive
  | dismissedStudentRegister
  | registrationCourseOutsideDepartment
  | onlyPendingCanBeApproved
  | onlyTeachersSubmitGrades
  | teacherNotAssignedToCourse
  | gradeSemesterNotActive
  | enrollmentAlreadyGraded
  | markOutOfRange
  | enrollmentDoesNotExist
  | onlyStudentsInDormitories
  | dormitoryNotActive
  | dormitoryGenderMismatch
  | dormitoryRoomFull
  | dormitoryDepartmentMismatch
  | firstAndLastNameRequired
  | bothStudentAndStaffId
  | studentIdRequired
  | studentHasStaffId
  | staffIdRequired
  | teacherHasStudentId
  | departmentRequiredForRole
  deriving Repr, DecidableEq

/-- The `RegistrationStatus` text choices, `registration/models.py`
lines 11–15. -/
inductive RegistrationStatus where
  | PENDING
  | APPROVED
  | REJECTED
  | CANCELLED
  deriving Repr, DecidableEq

/-- One `AcademicStatus` row for a fixed (student, semester)
(`academic/models.py` lines 416–459): the two GPA snapshot fields, the
standing classification and the optional section foreign key.  The
student/semester keys, timestamps and related navigation are carried by
the enclosing state. -/
structure AcademicStatusRec where
  semester_gpa : Option Rat
  cumulative_gpa : Option Rat
  status : AcademicStanding
  sectionId : Option Nat
  deriving Repr, DecidableEq

/-- Embedding of `AcademicStatus.save` (`academic/models.py` lines
486–493): before persisting, the three derived fields are recomputed from
the current graded enrollments (`semEnrollments` = the rows of the student in
the semester of the record, `allEnrollments` = the rows of the student
across all semesters), overwriting whatever the caller put in them; every other
field (here the section reference) is persisted as supplied.
`AcademicStatus.save` calls no `full_clean`, so it cannot fail. -/
def AcademicStatus_save (semEnrollments allEnrollments : List EnrollmentRec)
    (rec : AcademicStatusRec) : AcademicStatusRec :=
  let s := get_student_gpa semEnrollments
  let c := calculate_cumulative_gpa allEnrollments
  { rec with
    semester_gpa := s
    cumulative_gpa := c
    status := determine_status_from_gpa s c }

/-- Database state relevant to one (student, semester) pair, as touched by
`Registration.approve` and `GradeSubmission.save`.  `regStatus`/`regCourses`
are the single `Registration` row of the student for the semester (the
`unique_together ("student", "semester")` constraint on `Registration`
means there is at most one; we model exactly one).
`latestStatusDismissed` abbreviates the history lookup `student.academic_statuses
.order_by("-semester__start_date").first().status == "DISMISSED"` over all
semesters, which this single-semester state does not otherwise track. -/
structure World where
  studentRole : String
  studentDept : Option Nat
  latestStatusDismissed : Bool
  semesterActive : Bool
  hasSectionAssignment : Bool
  regStatus : RegistrationStatus
  regCourses : List CourseRec
  enrollments : List EnrollmentRec
  otherEnrollments : List EnrollmentRec
  standing : Option AcademicStatusRec
  submissions : List (Rat × String)
  deriving Repr, DecidableEq

/-- Embedding of `Enrollment.clean` (`academic/models.py` lines 143–184)
for an enrollment row of this student/semester: the seven rules in source
order.  `pkSet` is `self.pk` being set (rules 3 and 4 run only for new
rows).  Rule 5 uses that `Course.department` is a required foreign key
(always truthy).  The rule 6 queryset `Registration.objects.filter(student,
semester, status=APPROVED).exists()` reduces to the status of the single
registration row, by the `unique_together ("student", "semester")`
constraint. -/
def Enrollment_clean (w : World) (e : EnrollmentRec) (pkSet : Bool) : Option VErr :=
  if w.studentRole ≠ "STUDENT" then some .onlyStudentsEnroll
  else if w.latestStatusDismissed then some .dismissedStudentEnroll
  else if ¬pkSet ∧ ¬w.semesterActive then some .enrollSemesterNotActive
  else if ¬pkSet ∧ ¬e.course.is_active then some .courseNotActive
  else if w.studentDept.any (fun d => d != e.course.departmentId) then
    some .courseOutsideStudentDepartment
  else if w.regStatus ≠ .APPROVED then some .noApprovedRegistration
  else if ¬w.hasSectionAssignment then some .noSectionAssignment
  else none

/-- Embedding of `Registration.clean` (`registration/models.py` lines
37–64) for the already-persisted registration row (`self.pk` set, so the
course-set rule 5 runs): rules in source order; rule 5 raises at the first
course outside the department of the student. -/
def Registration_clean (w : World) : Option VErr :=
  if w.studentRole ≠ "STUDENT" then some .onlyStudentsRegister
  else if ¬w.semesterActive then some .registrationSemesterNotActive
  else if w.latestStatusDismissed then some .dismissedStudentRegister
  else match w.studentDept with
    | none => none
    | some d =>
      if w.regCourses.all (fun c => c.departmentId = d) then none
      else some .registrationCourseOutsideDepartment

/-- Embedding of `AcademicStatus.update_for_student_and_semester`
(`academic/models.py` lines 498–513): recompute semester GPA, cumulative
GPA and status, then `update_or_create` the (student, semester) snapshot
with those three fields (`AcademicStatus.save` recomputes the same values
again, idempotently).  A pre-existing section reference is preserved; a
freshly created row has none.  The lifetime enrollment set of the student is
`w.enrollments ++ w.otherEnrollments`. -/
def AcademicStatus_update_for_student_and_semester (w : World) : World :=
  let semGpa := get_student_gpa w.enrollments
  let cumGpa := calculate_cumulative_gpa (w.enrollments ++ w.otherEnrollments)
  let status := determine_status_from_gpa semGpa cumGpa
  let sectionId := match w.standing with
    | some st => st.sectionId
    | none => none
  { w with standing := some ⟨semGpa, cumGpa, status, sectionId⟩ }

/-- The enrollment-creation loop of `Registration.approve`
(`registration/models.py` lines 85–90): for each course of the
registration, `Enrollment.objects.get_or_create(student, semester,
course)`.  The get path (a row for that course already exists) writes
nothing; the create path runs `Enrollment.save`, i.e. `full_clean` on a
new ungraded row and then the insert.  A `ValidationError` propagates
immediately, leaving the rows created so far persisted (the source wraps
nothing in a transaction). -/
def approve_createEnrollments (w : World) : List CourseRec → World × Option VErr
  | [] => (w, none)
  | c :: cs =>
    if w.enrollments.any (fun e => e.course.id = c.id) then
      approve_createEnrollments w cs
    else
      let newE : EnrollmentRec := ⟨c, none⟩
      match Enrollment_clean w newE false with
      | some err => (w, some err)
      | none =>
        approve_createEnrollments { w with enrollments := w.enrollments ++ [newE] } cs

/-- Embedding of `Registration.approve` (`registration/models.py` lines
74–97): refuse unless PENDING; create enrollments for every course of the
registration; recompute the academic-status snapshot; then set the status
to APPROVED and persist it (`self.save(update_fields=["status",
"updated_at"])`, whose `full_clean` runs `Registration.clean` first — a
failure there leaves the stored status untouched).  The registration is
already persisted, so lines 81–82 (`if not self.pk: self.save()`) are a
no-op. -/
def Registration_approve (w : World) : World × Option VErr :=
  if w.regStatus ≠ .PENDING then (w, some .onlyPendingCanBeApproved)
  else
    match approve_createEnrollments w w.regCourses with
    | (w1, some err) => (w1, some err)
    | (w1, none) =>
      let w2 := AcademicStatus_update_for_student_and_semester w1
      match Registration_clean w2 with
      | some err => (w2, some err)
      | none => ({ w2 with regStatus := .APPROVED }, none)

/-- Truthiness of the `enrollment.grade` CharField in `if enrollment.grade:`
(NULL and the empty string are falsy). -/
def gradeTruthy : Option String → Bool
  | none => false
  | some s => !(s == "")

/-- Embedding of `GradeSubmission.clean` (`academic/models.py` lines
248–273): the four rules in source order.  `teacherRole` is
`submitted_by.role`; `teacherAssigned` is the queryset existence check
`enrollment.course.assignments.filter(teacher, semester=enrollment.semester)
.exists()`; `pkSet` is `self.pk` (rule 3 runs only for new submissions);
`e` is the target enrollment. -/
def GradeSubmission_clean (w : World) (teacherRole : String)
    (teacherAssigned : Bool) (pkSet : Bool) (e : EnrollmentRec) : Option VErr :=
  if teacherRole ≠ "TEACHER" then some .onlyTeachersSubmitGrades
  else if ¬teacherAssigned then some .teacherNotAssignedToCourse
  else if ¬pkSet ∧ ¬w.semesterActive then some .gradeSemesterNotActive
  else if gradeTruthy e.grade then some .enrollmentAlreadyGraded
  else none

/-- Embedding of `GradeSubmission.save` (`academic/models.py` lines
306–323) for a new submission (`pk` unset) against the enrollment of
course `cid` in this student/semester.  `full_clean` = field validators
(the 0–100 `mark` bounds) then `GradeSubmission.clean`; a failure there
persists nothing.  On success: derive the letter grade, insert the
submission row, then — only if the enrollment grade is still falsy — set
it and `enrollment.save(update_fields=["grade"])`, which re-runs
`Enrollment.clean` on the existing row (`pk` set); finally recompute the
academic-status snapshot.  The dangling `enrollmentDoesNotExist` arm
models the foreign key resolving to no row, which Django precludes. -/
def GradeSubmission_save (w : World) (teacherRole : String)
    (teacherAssigned : Bool) (mark : Rat) (cid : Nat) : World × Option VErr :=
  match w.enrollments.find? (fun e => e.course.id = cid) with
  | none => (w, some .enrollmentDoesNotExist)
  | some e =>
    if mark < 0 ∨ 100 < mark then (w, some .markOutOfRange)
    else
      match GradeSubmission_clean w teacherRole teacherAssigned false e with
      | some err => (w, some err)
      | none =>
        let letter := calculate_grade mark
        let w1 := { w with submissions := w.submissions ++ [(mark, letter)] }
        if gradeTruthy e.grade then
          (AcademicStatus_update_for_student_and_semester w1, none)
        else
          let e2 := { e with grade := some letter }
          match Enrollment_clean w1 e2 true with
          | some err => (w1, some err)
          | none =>
            let w2 := { w1 with
              enrollments := w1.enrollments.map
                (fun x => if x.course.id = cid then e2 else x) }
            (AcademicStatus_update_for_student_and_semester w2, none)

/-- One `Dormitory` row (`dormitory/models.py` lines 20–45): gender
restriction, optional department restriction, capacity, active flag. -/
structure Dormitory where
  gender : String
  departmentId : Option Nat
  capacity : Nat
  is_active : Bool
  deriving Repr, DecidableEq

/-- The student attributes read by `DormitoryAssignment.clean`: role,
gender (a nullable CharField on `CustomUser`) and department. -/
structure DormStudent where
  role : String
  gender : Option String
  departmentId : Option Nat
  deriving Repr, DecidableEq

/-- Embedding of `Dormitory.assigned_count` (lines 38–39):
`self.assignments.filter(semester=semester).count()`, with `assignments`
the student ids already assigned to this room for the semester. -/
def Dormitory_assigned_count (assignments : List Nat) : Nat := assignments.length

/-- Embedding of `Dormitory.available_slots` (lines 44–45):
`self.capacity - self.assigned_count(semester)` (Python ints, so the
difference may go negative). -/
def Dormitory_available_slots (d : Dormitory) (assignments : List Nat) : Int :=
  (d.capacity : Int) - (Dormitory_assigned_count assignments : Int)

/-- Embedding of `DormitoryAssignment.clean` (`dormitory/models.py` lines
65–89): the five rules in source order.  Rule 3 compares the nullable
gender of the student to the gender of the room (`NULL != "MALE"` is true in
Python).  Rule 5 fires whenever the dormitory carries a department and
the department of the student — possibly `None` — differs from it. -/
def DormitoryAssignment_clean (s : DormStudent) (d : Dormitory)
    (assignments : List Nat) : Option VErr :=
  if s.role ≠ "STUDENT" then some .onlyStudentsInDormitories
  else if ¬d.is_active then some .dormitoryNotActive
  else if s.gender ≠ some d.gender then some .dormitoryGenderMismatch
  else if Dormitory_available_slots d assignments ≤ 0 then some .dormitoryRoomFull
  else match d.departmentId with
    | some dd =>
      if s.departmentId ≠ some dd then some .dormitoryDepartmentMismatch else none
    | none => none

/-- Embedding of `DormitoryAssignment.save` (lines 91–93): `full_clean`
(whose model-level part is `DormitoryAssignment.clean`) and then the
insert of the new assignment row; a `ValidationError` persists nothing. -/
def DormitoryAssignment_save (s : DormStudent) (sid : Nat) (d : Dormitory)
    (assignments : List Nat) : List Nat × Option VErr :=
  match DormitoryAssignment_clean s d assignments with
  | some err => (assignments, some err)
  | none => (assignments ++ [sid], none)

/-- A `CustomUser` row (`user/models.py` lines 30–40): the fields read and
written by `CustomUser.clean` and `CustomUser.save`.  Nullable CharFields
are `Option String`; Python truthiness treats `None` and `""` as falsy. -/
structure CustomUser where
  first_name : String
  last_name : String
  is_superuser : Bool
  role : String
  student_id : Option String
  staff_id : Option String
  departmentId : Option Nat
  deriving Repr, DecidableEq

/-- Truthiness of a nullable CharField value. -/
def fieldTruthy : Option String → Bool
  | none => false
  | some s => !(s == "")

/-- Embedding of `CustomUser.clean` (`user/models.py` lines 45–81): the
six rules in source order (`AbstractUser.clean` above them only
normalizes the email and raises nothing). -/
def CustomUser_clean (u : CustomUser) : Option VErr :=
  if u.first_name = "" ∨ u.last_name = "" then some .firstAndLastNameRequired
  else if u.role = "ADMIN" then none
  else if fieldTruthy u.student_id ∧ fieldTruthy u.staff_id then
    some .bothStudentAndStaffId
  else if u.role = "STUDENT" ∧ ¬fieldTruthy u.student_id then some .studentIdRequired
  else if u.role = "STUDENT" ∧ fieldTruthy u.staff_id then some .studentHasStaffId
  else if u.role = "TEACHER" ∧ ¬fieldTruthy u.staff_id then some .staffIdRequired
  else if u.role = "TEACHER" ∧ fieldTruthy u.student_id then some .teacherHasStudentId
  else if (u.role = "STUDENT" ∨ u.role = "TEACHER") ∧ u.departmentId = none then
    some .departmentRequiredForRole
  else none

/-- Embedding of `CustomUser.save` (`user/models.py` lines 87–98): when
`is_superuser` is set, force the role to ADMIN and clear `student_id`,
`staff_id` and `department`; then `full_clean`; on success the adjusted
row is persisted (`.ok`), on `ValidationError` nothing is (`.error`). -/
def CustomUser_save (u : CustomUser) : Except VErr CustomUser :=
  let u' := if u.is_superuser then
      { u with role := "ADMIN", student_id := none, staff_id := none,
               departmentId := none }
    else u
  match CustomUser_clean u' with
  | some err => .error err
  | none => .ok u'

/-- Predicate for an enrollment whose grade maps to a grade point: not
skipped by the GPA loop. -/
def gradeMapped (e : EnrollmentRec) : Bool := (e.grade.bind GRADE_POINTS).isSome

/-- Total credit hours accumulated by the GPA loop: the credit hours of
the enrollments whose grade is set and mapped. -/
def gradedCreditHours (es : List EnrollmentRec) : Nat :=
  ((es.filter gradeMapped).map (fun e => e.course.credit_hours)).sum

/-- Quality points accumulated by the GPA loop. -/
def gradedQualityPoints (es : List EnrollmentRec) : Rat :=
  ((es.filter gradeMapped).map
    (fun e => ((e.grade.bind GRADE_POINTS).getD 0) * (e.course.credit_hours : Rat))).sum

/-- Modelled from the words of the spec, for comparison with the source
`get_student_gpa` (section 4.2 of the spec): skip ungraded or
unmapped-grade entries, return absent exactly when the accumulated
credit hours are zero, otherwise quality points over credit hours,
rounded half-up to two decimal places. -/
def computeGpaSpec (es : List EnrollmentRec) : Option Rat :=
  if gradedCreditHours es = 0 then none
  else some (roundHalfUp2 (gradedQualityPoints es / (gradedCreditHours es : Rat)))

/-- C5: for every mark, the letter-grade function is total and its bands
are exclusive and exhaustive following the fixed table [90,∞)→A+,
[85,90)→A, [80,85)→A-, [75,80)→B+, [70,75)→B, [65,70)→B-, [60,65)→C+,
[50,60)→C, [45,50)→C-, [40,45)→D, else F (each letter is produced exactly
on its band, so the bands cover every mark and no two overlap); in
particular 90.000→A+, 89.999→A, 92.5→A+, 44.999→D and 39.999→F. -/
theorem calculate_grade_bands :
    (∀ m : Rat,
      (calculate_grade m = "A+" ↔ 90 ≤ m) ∧
      (calculate_grade m = "A" ↔ 85 ≤ m ∧ m < 90) ∧
      (calculate_grade m = "A-" ↔ 80 ≤ m ∧ m < 85) ∧
      (calculate_grade m = "B+" ↔ 75 ≤ m ∧ m < 80) ∧
      (calculate_grade m = "B" ↔ 70 ≤ m ∧ m < 75) ∧
      (calculate_grade m = "B-" ↔ 65 ≤ m ∧ m < 70) ∧
      (calculate_grade m = "C+" ↔ 60 ≤ m ∧ m < 65) ∧
      (calculate_grade m = "C" ↔ 50 ≤ m ∧ m < 60) ∧
      (calculate_grade m = "C-" ↔ 45 ≤ m ∧ m < 50) ∧
      (calculate_grade m = "D" ↔ 40 ≤ m ∧ m < 45) ∧
      (calculate_grade m = "F" ↔ m < 40)) ∧
    calculate_grade 90 = "A+" ∧
    calculate_grade (89999/1000) = "A" ∧
    calculate_grade (925/10) = "A+" ∧
    calculate_grade (44999/1000) = "D" ∧
    calculate_grade (39999/1000) = "F" := by
  refine ⟨fun m => ?_, by norm_num [calculate_grade], by norm_num [calculate_grade],
    by norm_num [calculate_grade], by norm_num [calculate_grade],
    by norm_num [calculate_grade]⟩
  rcases le_or_lt 90 m with h1 | h1
  · rw [calculate_grade, if_pos h1]
    refine ⟨?_, ?_, ?_, ?_, ?_, ?_, ?_, ?_, ?_, ?_, ?_⟩ <;> simp <;>
      first
        | linarith
        | (intro ha; linarith)
        | (rintro ha hb; linarith)
        | (constructor <;> linarith)
  · rcases le_or_lt 85 m with h2 | h2
    · rw [calculate_grade, if_neg (by linarith), if_pos ⟨h2, h1⟩]
      refine ⟨?_, ?_, ?_, ?_, ?_, ?_, ?_, ?_, ?_, ?_, ?_⟩ <;> simp <;>
        first
          | linarith
          | (intro ha; linarith)
          | (rintro ha hb; linarith)
          | (constructor <;> linarith)
    · rcases le_or_lt 80 m with h3 | h3
      · rw [calculate_grade, if_neg (by linarith),
          if_neg (by rintro ⟨ha, hb⟩; linarith), if_pos ⟨h3, h2⟩]
        refine ⟨?_, ?_, ?_, ?_, ?_, ?_, ?_, ?_, ?_, ?_, ?_⟩ <;> simp <;>
          first
            | linarith
            | (intro ha; linarith)
            | (rintro ha hb; linarith)
            | (constructor <;> linarith)
      · rcases le_or_lt 75 m with h4 | h4
        · rw [calculate_grade, if_neg (by linarith),
            if_neg (by rintro ⟨ha, hb⟩; linarith),
            if_neg (by rintro ⟨ha, hb⟩; linarith), if_pos ⟨h4, h3⟩]
          refine ⟨?_, ?_, ?_, ?_, ?_, ?_, ?_, ?_, ?_, ?_, ?_⟩ <;> simp <;>
            first
              | linarith
              | (intro ha; linarith)
              | (rintro ha hb; linarith)
              | (constructor <;> linarith)
        · rcases le_or_lt 70 m with h5 | h5
          · rw [calculate_grade, if_neg (by linarith),
              if_neg (by rintro ⟨ha, hb⟩; linarith),
              if_neg (by rintro ⟨ha, hb⟩; linarith),
              if_neg (by rintro ⟨ha, hb⟩; linarith), if_pos ⟨h5, h4⟩]
            refine ⟨?_, ?_, ?_, ?_, ?_, ?_, ?_, ?_, ?_, ?_, ?_⟩ <;> simp <;>
              first
                | linarith
                | (intro ha; linarith)
                | (rintro ha hb; linarith)
                | (constructor <;> linarith)
          · rcases le_or_lt 65 m with h6 | h6
            · rw [calculate_grade, if_neg (by linarith),
                if_neg (by rintro ⟨ha, hb⟩; linarith),
                if_neg (by rintro ⟨ha, hb⟩; linarith),
                if_neg (by rintro ⟨ha, hb⟩; linarith),
                if_neg (by rintro ⟨ha, hb⟩; linarith), if_pos ⟨h6, h5⟩]
              refine ⟨?_, ?_, ?_, ?_, ?_, ?_, ?_, ?_, ?_, ?_, ?_⟩ <;> simp <;>
                first
                  | linarith
                  | (intro ha; linarith)
                  | (rintro ha hb; linarith)
                  | (constructor <;> linarith)
            · rcases le_or_lt 60 m with h7 | h7
              · rw [calculate_grade, if_neg (by linarith),
                  if_neg (by rintro ⟨ha, hb⟩; linarith),
                  if_neg (by rintro ⟨ha, hb⟩; linarith),
                  if_neg (by rintro ⟨ha, hb⟩; linarith),
                  if_neg (by rintro ⟨ha, hb⟩; linarith),
                  if_neg (by rintro ⟨ha, hb⟩; linarith), if_pos ⟨h7, h6⟩]
                refine ⟨?_, ?_, ?_, ?_, ?_, ?_, ?_, ?_, ?_, ?_, ?_⟩ <;> simp <;>
                  first
                    | linarith
                    | (intro ha; linarith)
                    | (rintro ha hb; linarith)
                    | (constructor <;> linarith)
              · rcases le_or_lt 50 m with h8 | h8
                · rw [calculate_grade, if_neg (by linarith),
                    if_neg (by rintro ⟨ha, hb⟩; linarith),
                    if_neg (by rintro ⟨ha, hb⟩; linarith),
                    if_neg (by rintro ⟨ha, hb⟩; linarith),
                    if_neg (by rintro ⟨ha, hb⟩; linarith),
                    if_neg (by rintro ⟨ha, hb⟩; linarith),
                    if_neg (by rintro ⟨ha, hb⟩; linarith), if_pos ⟨h8, h7⟩]
                  refine ⟨?_, ?_, ?_, ?_, ?_, ?_, ?_, ?_, ?_, ?_, ?_⟩ <;> simp <;>
                    first
                      | linarith
                      | (intro ha; linarith)
                      | (rintro ha hb; linarith)
                      | (constructor <;> linarith)
                · rcases le_or_lt 45 m with h9 | h9
                  · rw [calculate_grade, if_neg (by linarith),
                      if_neg (by rintro ⟨ha, hb⟩; linarith),
                      if_neg (by rintro ⟨ha, hb⟩; linarith),
                      if_neg (by rintro ⟨ha, hb⟩; linarith),
                      if_neg (by rintro ⟨ha, hb⟩; linarith),
                      if_neg (by rintro ⟨ha, hb⟩; linarith),
                      if_neg (by rintro ⟨ha, hb⟩; linarith),
                      if_neg (by rintro ⟨ha, hb⟩; linarith), if_pos ⟨h9, h8⟩]
                    refine ⟨?_, ?_, ?_, ?_, ?_, ?_, ?_, ?_, ?_, ?_, ?_⟩ <;> simp <;>
                      first
                        | linarith
                        | (intro ha; linarith)
                        | (rintro ha hb; linarith)
                        | (constructor <;> linarith)
                  · rcases le_or_lt 40 m with h10 | h10
                    · rw [calculate_grade, if_neg (by linarith),
                        if_neg (by rintro ⟨ha, hb⟩; linarith),
                        if_neg (by rintro ⟨ha, hb⟩; linarith),
                        if_neg (by rintro ⟨ha, hb⟩; linarith),
                        if_neg (by rintro ⟨ha, hb⟩; linarith),
                        if_neg (by rintro ⟨ha, hb⟩; linarith),
                        if_neg (by rintro ⟨ha, hb⟩; linarith),
                        if_neg (by rintro ⟨ha, hb⟩; linarith),
                        if_neg (by rintro ⟨ha, hb⟩; linarith), if_pos ⟨h10, h9⟩]
                      refine ⟨?_, ?_, ?_, ?_, ?_, ?_, ?_, ?_, ?_, ?_, ?_⟩ <;> simp <;>
                        first
                          | linarith
                          | (intro ha; linarith)
                          | (rintro ha hb; linarith)
                          | (constructor <;> linarith)
                    · rw [calculate_grade, if_neg (by linarith),
                        if_neg (by rintro ⟨ha, hb⟩; linarith),
                        if_neg (by rintro ⟨ha, hb⟩; linarith),
                        if_neg (by rintro ⟨ha, hb⟩; linarith),
                        if_neg (by rintro ⟨ha, hb⟩; linarith),
                        if_neg (by rintro ⟨ha, hb⟩; linarith),
                        if_neg (by rintro ⟨ha, hb⟩; linarith),
                        if_neg (by rintro ⟨ha, hb⟩; linarith),
                        if_neg (by rintro ⟨ha, hb⟩; linarith),
                        if_neg (by rintro ⟨ha, hb⟩; linarith)]
                      refine ⟨?_, ?_, ?_, ?_, ?_, ?_, ?_, ?_, ?_, ?_, ?_⟩ <;> simp <;>
                        first
                          | linarith
                          | (intro ha; linarith)
                          | (rintro ha hb; linarith)
                          | (constructor <;> linarith)

/-- C3: the standing classification uses `reference` = semester GPA if
present else cumulative GPA; it returns ACTIVE exactly when the reference
is at least 2.00, PROBATION exactly on [1.75, 2.00), DISMISSED exactly
below 1.75, and ACTIVE when the reference is absent; semester GPA 1.80
with no cumulative history yields PROBATION and 1.50 yields DISMISSED. -/
theorem determine_status_classification (s c : Option Rat) (r : Rat) :
    (s = some r → gpaReference s c = some r) ∧
    (s = none → gpaReference s c = c) ∧
    (gpaReference s c = none → determine_status_from_gpa s c = .ACTIVE) ∧
    (gpaReference s c = some r →
      ((determine_status_from_gpa s c = .ACTIVE) ↔ 2 ≤ r) ∧
      ((determine_status_from_gpa s c = .PROBATION) ↔ 175/100 ≤ r ∧ r < 2) ∧
      ((determine_status_from_gpa s c = .DISMISSED) ↔ r < 175/100)) ∧
    determine_status_from_gpa (some (18/10)) none = .PROBATION ∧
    determine_status_from_gpa (some (15/10)) none = .DISMISSED := by
  refine ⟨?_, ?_, ?_, ?_, ?_, ?_⟩
  · rintro rfl; rfl
  · rintro rfl; rfl
  · intro h; unfold determine_status_from_gpa; rw [h]
  · intro h
    unfold determine_status_from_gpa
    rw [h]
    dsimp only
    split_ifs with h2 h3 <;>
      refine ⟨?_, ?_, ?_⟩ <;> simp <;>
        first
          | linarith
          | (intro ha; linarith)
          | (rintro ha hb; linarith)
          | (constructor <;> linarith)
  · norm_num [determine_status_from_gpa, gpaReference]
  · norm_num [determine_status_from_gpa, gpaReference]

/-- Witness for C3 at semester GPA 1.80 with no cumulative history. -/
theorem determine_status_classification_witness :
    gpaReference (some (18/10)) none = some (18/10) ∧
    determine_status_from_gpa (some (18/10)) none = .PROBATION ∧
    ((determine_status_from_gpa (some (18/10)) none = .PROBATION) ↔
      175/100 ≤ (18/10 : Rat) ∧ (18/10 : Rat) < 2) := by
  refine ⟨(determine_status_classification (some (18/10)) none (18/10)).1 rfl,
    (determine_status_classification (some (18/10)) none (18/10)).2.2.2.2.1,
    ((determine_status_classification (some (18/10)) none (18/10)).2.2.2.1
      ((determine_status_classification (some (18/10)) none (18/10)).1 rfl)).2.1⟩

/-- C9: persisting an academic-status snapshot recomputes semester GPA,
cumulative GPA and status from the current graded enrollments, so
caller-supplied values of those three fields never survive; recomputing
again with unchanged enrollments reproduces the same record. -/
theorem academicStatus_save_derives (semE allE : List EnrollmentRec)
    (r r' : AcademicStatusRec) :
    (AcademicStatus_save semE allE r).semester_gpa = get_student_gpa semE ∧
    (AcademicStatus_save semE allE r).cumulative_gpa = calculate_cumulative_gpa allE ∧
    (AcademicStatus_save semE allE r).status =
      determine_status_from_gpa (get_student_gpa semE) (calculate_cumulative_gpa allE) ∧
    AcademicStatus_save semE allE { r' with sectionId := r.sectionId } =
      AcademicStatus_save semE allE r ∧
    AcademicStatus_save semE allE (AcademicStatus_save semE allE r) =
      AcademicStatus_save semE allE r := by
  unfold AcademicStatus_save
  exact ⟨rfl, rfl, rfl, rfl, rfl⟩

/-- The enrollment set of scenario A in the spec: grade A worth 4 credit
hours and grade B+ worth 3 credit hours. -/
def scenarioA : List EnrollmentRec :=
  [⟨⟨1, 1, 4, true⟩, some "A"⟩, ⟨⟨2, 1, 3, true⟩, some "B+"⟩]

/-- C6 counterexample: on enrollments {(A, 4cr), (B+, 3cr)} the GPA
computation does not return 3.36. -/
theorem scenarioA_gpa_not_336 : get_student_gpa scenarioA ≠ some (336/100) := by
  norm_num [scenarioA, get_student_gpa, gpaStep, GRADE_POINTS, roundHalfUp2]

/-- C6 amended: on enrollments {(A, 4cr), (B+, 3cr)} the GPA computation
returns (4.0*4 + 3.5*3)/7 = 26.5/7 ≈ 3.7857…, which rounds half-up to
3.79. -/
theorem scenarioA_gpa : get_student_gpa scenarioA = some (379/100) := by
  norm_num [scenarioA, get_student_gpa, gpaStep, GRADE_POINTS, roundHalfUp2]

/-- C10: a save of a user with `is_superuser` set forces role ADMIN and
clears `student_id`, `staff_id` and `department`, whatever the caller
supplied, so no persisted superuser holds the STUDENT or TEACHER role or
a department. -/
theorem superuser_save_admin (u u' : CustomUser) (h : u.is_superuser = true)
    (hok : CustomUser_save u = .ok u') :
    u'.role = "ADMIN" ∧ u'.student_id = none ∧ u'.staff_id = none ∧
    u'.departmentId = none ∧ u'.role ≠ "STUDENT" ∧ u'.role ≠ "TEACHER" := by
  unfold CustomUser_save at hok
  rw [if_pos h] at hok
  by_cases hname : u.first_name = "" ∨ u.last_name = ""
  · simp [CustomUser_clean, hname] at hok
  · simp [CustomUser_clean, hname] at hok
    rw [← hok]
    exact ⟨rfl, rfl, rfl, rfl,
      show ("ADMIN" : String) ≠ "STUDENT" by decide,
      show ("ADMIN" : String) ≠ "TEACHER" by decide⟩

/-- Witness for C10: a superuser submitted with the STUDENT role, both
ids and a department is persisted as a clean ADMIN. -/
theorem superuser_save_admin_witness :
    (⟨"Ada", "Admin", true, "STUDENT", some "S1", some "T1", some 3⟩ :
        CustomUser).is_superuser = true ∧
    CustomUser_save ⟨"Ada", "Admin", true, "STUDENT", some "S1", some "T1", some 3⟩ =
      .ok ⟨"Ada", "Admin", true, "ADMIN", none, none, none⟩ ∧
    (⟨"Ada", "Admin", true, "ADMIN", none, none, none⟩ : CustomUser).role = "ADMIN" ∧
    (⟨"Ada", "Admin", true, "ADMIN", none, none, none⟩ : CustomUser).student_id = none ∧
    (⟨"Ada", "Admin", true, "ADMIN", none, none, none⟩ : CustomUser).staff_id = none ∧
    (⟨"Ada", "Admin", true, "ADMIN", none, none, none⟩ : CustomUser).departmentId = none := by
  refine ⟨rfl, by rfl, ?_, ?_, ?_, ?_⟩ <;>
    have hres := superuser_save_admin
      ⟨"Ada", "Admin", true, "STUDENT", some "S1", some "T1", some 3⟩
      ⟨"Ada", "Admin", true, "ADMIN", none, none, none⟩ rfl (by rfl)
  · exact hres.1
  · exact hres.2.1
  · exact hres.2.2.1
  · exact hres.2.2.2.1

/-- Auxiliary: the GPA accumulation loop computes, over any enrollment
list, the sums of quality points and credit hours of its mapped-grade
entries. -/
theorem foldl_gpaStep_eq (es : List EnrollmentRec) (a : Rat × Nat) :
    es.foldl gpaStep a = (a.1 + gradedQualityPoints es, a.2 + gradedCreditHours es) := by
  induction es generalizing a with
  | nil => simp [gradedQualityPoints, gradedCreditHours]
  | cons e es ih =>
    rw [List.foldl_cons, ih]
    unfold gpaStep
    cases hg : e.grade.bind GRADE_POINTS with
    | none =>
      have hm : gradeMapped e = false := by simp [gradeMapped, hg]
      simp [gradedQualityPoints, gradedCreditHours, List.filter_cons, hm]
    | some gp =>
      have hm : gradeMapped e = true := by simp [gradeMapped, hg]
      refine Prod.ext ?_ ?_ <;>
        simp [gradedQualityPoints, gradedCreditHours, List.filter_cons, hm, hg] <;>
        ring

/-- Auxiliary: filtering on a mapped grade point subsumes the queryset
pre-filter on a non-NULL grade. -/
theorem filter_isSome_filter_mapped (es : List EnrollmentRec) :
    (es.filter (fun e => e.grade.isSome)).filter gradeMapped = es.filter gradeMapped := by
  induction es with
  | nil => rfl
  | cons e es ih =>
    by_cases h : e.grade.isSome
    · by_cases hm : gradeMapped e <;> simp [List.filter_cons, h, hm, ih]
    · have hm : gradeMapped e = false := by
        cases hg : e.grade with
        | none => simp [gradeMapped, hg]
        | some s => simp [hg] at h
      simp [List.filter_cons, h, hm, ih]

/-- C4: the GPA computation skips ungraded and unmapped-grade entries,
returns absent (not 0) exactly when the accumulated graded credit hours
are 0, and otherwise returns quality points over credit hours rounded
half-up to two decimals, so a raw value of 3.625 (grades {(A, 5cr),
(B, 3cr)}) rounds to 3.63; the cumulative variant computes the same
function. -/
theorem computeGpa_refines (es : List EnrollmentRec) :
    get_student_gpa es = computeGpaSpec es ∧
    calculate_cumulative_gpa es = get_student_gpa es ∧
    (get_student_gpa es = none ↔ gradedCreditHours es = 0) ∧
    roundHalfUp2 (29/8) = 363/100 ∧
    get_student_gpa [⟨⟨1, 1, 5, true⟩, some "A"⟩, ⟨⟨2, 1, 3, true⟩, some "B"⟩] =
      some (363/100) := by
  have hqp : gradedQualityPoints (es.filter (fun e => e.grade.isSome)) =
      gradedQualityPoints es := by
    unfold gradedQualityPoints; rw [filter_isSome_filter_mapped]
  have hcr : gradedCreditHours (es.filter (fun e => e.grade.isSome)) =
      gradedCreditHours es := by
    unfold gradedCreditHours; rw [filter_isSome_filter_mapped]
  have hmain : get_student_gpa es = computeGpaSpec es := by
    simp only [get_student_gpa, computeGpaSpec]
    rw [foldl_gpaStep_eq, hqp, hcr]
    simp only [zero_add]
    by_cases hempty : (es.filter (fun e => e.grade.isSome)).isEmpty
    · have h0 : es.filter gradeMapped = [] := by
        rw [← filter_isSome_filter_mapped]
        rw [List.isEmpty_iff.mp hempty]
        rfl
      have hc0 : gradedCreditHours es = 0 := by simp [gradedCreditHours, h0]
      simp [hempty, hc0]
    · simp [hempty]
  refine ⟨hmain, rfl, ?_, by norm_num [roundHalfUp2], by
    norm_num [get_student_gpa, gpaStep, GRADE_POINTS, roundHalfUp2]⟩
  rw [hmain]
  unfold computeGpaSpec
  by_cases h0 : gradedCreditHours es = 0 <;> simp [h0]

/-- Auxiliary: a dormitory assignment that passes validation saw a free
slot (rule 4 of `DormitoryAssignment.clean`). -/
theorem dormClean_none_slots (s : DormStudent) (d : Dormitory) (asg : List Nat)
    (h : DormitoryAssignment_clean s d asg = none) :
    0 < Dormitory_available_slots d asg := by
  unfold DormitoryAssignment_clean at h
  split_ifs at h with h1 h2 h3 h4
  · omega
  all_goals
    first
      | (cases hd : d.departmentId <;> simp [hd] at h <;> omega)
      | simp at h

/-- C7: a dormitory room never holds more assignments for a period than
its capacity: with the room full (and the earlier role/active/gender
rules passing, so that the capacity rule is the one that fires) the next
assignment attempt fails with the capacity error and writes no row; any
attempt that fails writes no row, and any attempt that succeeds leaves
the room at or below capacity. -/
theorem dormitory_capacity (s : DormStudent) (sid : Nat) (d : Dormitory)
    (asg : List Nat) :
    (s.role = "STUDENT" → d.is_active = true → s.gender = some d.gender →
      d.capacity ≤ asg.length →
      DormitoryAssignment_save s sid d asg = (asg, some .dormitoryRoomFull)) ∧
    ((DormitoryAssignment_save s sid d asg).2.isSome = true →
      (DormitoryAssignment_save s sid d asg).1 = asg) ∧
    ((DormitoryAssignment_save s sid d asg).2 = none →
      (DormitoryAssignment_save s sid d asg).1.length ≤ d.capacity) := by
  refine ⟨?_, ?_, ?_⟩
  · intro hrole hact hgen hfull
    unfold DormitoryAssignment_save DormitoryAssignment_clean
    rw [if_neg (by simp [hrole]), if_neg (by simp [hact]), if_neg (by simp [hgen]),
      if_pos (by unfold Dormitory_available_slots Dormitory_assigned_count; omega)]
  · intro hsome
    unfold DormitoryAssignment_save at hsome ⊢
    cases hclean : DormitoryAssignment_clean s d asg with
    | none => rw [hclean] at hsome; simp at hsome
    | some err => rfl
  · intro hnone
    unfold DormitoryAssignment_save at hnone ⊢
    cases hclean : DormitoryAssignment_clean s d asg with
    | none =>
      have hs := dormClean_none_slots s d asg hclean
      unfold Dormitory_available_slots Dormitory_assigned_count at hs
      simp
      omega
    | some err => rw [hclean] at hnone; simp at hnone

/-- Witness for C7: a room of capacity 2 with two occupants rejects a
third, matching student with the capacity error and writes nothing. -/
theorem dormitory_capacity_witness :
    DormitoryAssignment_save ⟨"STUDENT", some "MALE", none⟩ 7 ⟨"MALE", none, 2, true⟩
      [5, 6] = ([5, 6], some .dormitoryRoomFull) :=
  (dormitory_capacity ⟨"STUDENT", some "MALE", none⟩ 7 ⟨"MALE", none, 2, true⟩
    [5, 6]).1 rfl rfl rfl (by decide)

/-- C8 counterexample: a student carrying no department, otherwise fully
eligible, is rejected by the department rule of a department-restricted
dormitory — the rule does not require the student to carry a department. -/
theorem dormitory_deptless_student_rejected :
    DormitoryAssignment_save ⟨"STUDENT", some "MALE", none⟩ 7 ⟨"MALE", some 1, 4, true⟩
      [] = ([], some .dormitoryDepartmentMismatch) := by
  rfl

/-- C8 amended: the gender of the student must equal the dormitory; the
department rule applies whenever the dormitory carries a department, and
then the department of the student — which may be absent — must equal it, so a
student with no department is also rejected by a department-restricted
dormitory; a dormitory without a department imposes no department
check. -/
theorem dormitory_gender_department_rules (s : DormStudent) (sid : Nat)
    (d : Dormitory) (asg : List Nat) (dd : Nat) :
    (s.role = "STUDENT" → d.is_active = true → s.gender ≠ some d.gender →
      DormitoryAssignment_save s sid d asg = (asg, some .dormitoryGenderMismatch)) ∧
    (s.role = "STUDENT" → d.is_active = true → s.gender = some d.gender →
      0 < Dormitory_available_slots d asg → d.departmentId = some dd →
      s.departmentId ≠ some dd →
      DormitoryAssignment_save s sid d asg = (asg, some .dormitoryDepartmentMismatch)) ∧
    (s.role = "STUDENT" → d.is_active = true → s.gender = some d.gender →
      0 < Dormitory_available_slots d asg → d.departmentId = none →
      DormitoryAssignment_save s sid d asg = (asg ++ [sid], none)) := by
  refine ⟨?_, ?_, ?_⟩
  · intro hrole hact hgen
    unfold DormitoryAssignment_save DormitoryAssignment_clean
    rw [if_neg (by simp [hrole]), if_neg (by simp [hact]), if_pos hgen]
  · intro hrole hact hgen hslots hdd hsd
    unfold DormitoryAssignment_save DormitoryAssignment_clean
    rw [if_neg (by simp [hrole]), if_neg (by simp [hact]), if_neg (by simp [hgen]),
      if_neg (by omega), hdd]
    simp [hsd]
  · intro hrole hact hgen hslots hdd
    unfold DormitoryAssignment_save DormitoryAssignment_clean
    rw [if_neg (by simp [hrole]), if_neg (by simp [hact]), if_neg (by simp [hgen]),
      if_neg (by omega), hdd]

/-- Witness for C8 (amended): a department-free dormitory admits an
eligible student without a department check. -/
theorem dormitory_gender_department_rules_witness :
    DormitoryAssignment_save ⟨"STUDENT", some "FEMALE", none⟩ 9 ⟨"FEMALE", none, 4, true⟩
      [] = ([9], none) :=
  (dormitory_gender_department_rules ⟨"STUDENT", some "FEMALE", none⟩ 9
    ⟨"FEMALE", none, 4, true⟩ [] 0).2.2 rfl rfl rfl (by decide) rfl

/-- Auxiliary: a grade submission that passes validation targets an
enrollment whose grade is still empty (rule 4 of
`GradeSubmission.clean`). -/
theorem gradeSubmission_clean_none (w : World) (tr : String) (ta : Bool)
    (pk : Bool) (e : EnrollmentRec)
    (h : GradeSubmission_clean w tr ta pk e = none) :
    gradeTruthy e.grade = false := by
  unfold GradeSubmission_clean at h
  split_ifs at h with h1 h2 h3 h4
  · simp at h4
    exact h4
  all_goals simp at h

/-- Auxiliary: the academic-status recompute only rewrites the standing
snapshot. -/
theorem update_standing_enrollments (w : World) :
    (AcademicStatus_update_for_student_and_semester w).enrollments = w.enrollments :=
  rfl

/-- C2: a grade submission against an enrollment whose grade is non-empty
fails with a validation error and persists nothing, and no outcome of the
submission operation ever rewrites an enrollment row that already carries
a non-empty grade.  The `Nodup` hypothesis mirrors the
`unique_together ("student", "course", "semester")` constraint on
`Enrollment`. -/
theorem grade_submission_immutable (w : World) (tr : String) (ta : Bool)
    (mark : Rat) (cid : Nat) (e : EnrollmentRec)
    (hu : (w.enrollments.map (fun x => x.course.id)).Nodup) :
    (w.enrollments.find? (fun x => x.course.id = cid) = some e →
      gradeTruthy e.grade = true →
      (GradeSubmission_save w tr ta mark cid).2.isSome = true ∧
      (GradeSubmission_save w tr ta mark cid).1 = w) ∧
    (∀ x ∈ w.enrollments, gradeTruthy x.grade = true →
      x ∈ (GradeSubmission_save w tr ta mark cid).1.enrollments) := by
  constructor
  · intro hfind hg
    unfold GradeSubmission_save
    rw [hfind]
    dsimp only
    by_cases hm : mark < 0 ∨ 100 < mark
    · rw [if_pos hm]
      exact ⟨rfl, rfl⟩
    · rw [if_neg hm]
      cases hclean : GradeSubmission_clean w tr ta false e with
      | some err => exact ⟨rfl, rfl⟩
      | none =>
        rw [gradeSubmission_clean_none w tr ta false e hclean] at hg
        simp at hg
  · intro x hx hgx
    unfold GradeSubmission_save
    cases hfind : w.enrollments.find? (fun y => y.course.id = cid) with
    | none => simpa using hx
    | some e' =>
      dsimp only
      by_cases hm : mark < 0 ∨ 100 < mark
      · rw [if_pos hm]
        simpa using hx
      · rw [if_neg hm]
        cases hclean : GradeSubmission_clean w tr ta false e' with
        | some err => simpa using hx
        | none =>
          have hge' : gradeTruthy e'.grade = false :=
            gradeSubmission_clean_none w tr ta false e' hclean
          rw [hge']
          cases hec : Enrollment_clean
              { w with submissions := w.submissions ++ [(mark, calculate_grade mark)] }
              { e' with grade := some (calculate_grade mark) } true with
          | some err =>
            simp only [Bool.false_eq_true, if_false]
            simpa using hx
          | none =>
            simp only [Bool.false_eq_true, if_false, update_standing_enrollments]
            refine List.mem_map.mpr ⟨x, hx, ?_⟩
            have hxid : ¬(x.course.id = cid) := by
              intro hid
              have he'mem : e' ∈ w.enrollments := List.mem_of_find?_eq_some hfind
              have he'id : e'.course.id = cid := by
                have := List.find?_some hfind
                simpa using this
              have hxe : x = e' :=
                List.inj_on_of_nodup_map hu hx he'mem (by rw [hid, he'id])
              rw [hxe, hge'] at hgx
              simp at hgx
            simp [hxid]

/-- A database state holding one APPROVED registration and one graded
enrollment (grade A, 3 credit hours) for the student and semester; every
eligibility precondition holds. -/
def wGraded : World :=
  { studentRole := "STUDENT", studentDept := some 1,
    latestStatusDismissed := false, semesterActive := true,
    hasSectionAssignment := true, regStatus := .APPROVED, regCourses := [],
    enrollments := [⟨⟨1, 1, 3, true⟩, some "A"⟩], otherEnrollments := [],
    standing := none, submissions := [] }

/-- Witness for C2: a second submission against the already-graded
enrollment of `wGraded` fails and leaves the state untouched. -/
theorem grade_submission_immutable_witness :
    (GradeSubmission_save wGraded "TEACHER" true 50 1).2.isSome = true ∧
    (GradeSubmission_save wGraded "TEACHER" true 50 1).1 = wGraded :=
  (grade_submission_immutable wGraded "TEACHER" true 50 1 ⟨⟨1, 1, 3, true⟩, some "A"⟩
    (by decide)).1 rfl rfl

/-- The state of scenario C in the spec: a PENDING registration with
three active courses in the department of the student, for an eligible,
section-assigned student with no enrollments yet. -/
def scenarioC : World :=
  { studentRole := "STUDENT", studentDept := some 1,
    latestStatusDismissed := false, semesterActive := true,
    hasSectionAssignment := true, regStatus := .PENDING,
    regCourses := [⟨11, 1, 3, true⟩, ⟨12, 1, 3, true⟩, ⟨13, 1, 4, true⟩],
    enrollments := [], otherEnrollments := [], standing := none,
    submissions := [] }

/-- C1 (code bug): approving the scenario-C registration — PENDING, three
courses, every other eligibility precondition satisfied — does not create
its three enrollments and approve; it fails at the very first enrollment
with the approved-registration error, because `Enrollment.clean` demands
an APPROVED registration for this (student, semester) while
`Registration.approve` only sets APPROVED after the enrollments are
created, and the registration row for the pair is unique.  The status is
left PENDING and no enrollment is written. -/
theorem registration_approve_never_enrolls :
    Registration_approve scenarioC = (scenarioC, some .noApprovedRegistration) ∧
    (Registration_approve scenarioC).1.regStatus = .PENDING ∧
    (Registration_approve scenarioC).1.enrollments = [] ∧
    (Registration_approve scenarioC).2 ≠ none := by
  refine ⟨rfl, rfl, rfl, ?_⟩
  rw [show Registration_approve scenarioC = (scenarioC, some .noApprovedRegistration) from rfl]
  simp

end CampusHub
